import Mathlib

/-!
# Verification of the line-weather-bot webhook pipeline (src/app.py)

A shallow embedding of the single-file Flask/LINE bot: signature-checked
webhook endpoint, 4-letter ICAO validation, two sequential plain-text
weather fetches (METAR + TAF) from the NOAA text mirror, and reply
formatting.  Outbound HTTP is modelled by passing the two fetch outcomes
(status/body, or the class name of a raised exception) as explicit inputs,
the requests the code issues are collected as an ordered trace.
-/

namespace LineWeatherBot

/-- Outcome of one `requests.get` call: either a completed HTTP response
(status code and text body), or an exception raised by the transport layer
(timeout, DNS failure, connection refused, ...), identified by its Python
class name (`e.__class__.__name__`). -/
inductive FetchResult where
  | ok (status : Nat) (body : String)
  | exn (className : String)
deriving DecidableEq, Repr

/-- One outbound HTTP GET request as the code issues it: URL, the
`User-Agent` header value, and the `timeout=` argument. -/
structure Request where
  url : String
  userAgent : String
  timeout : Nat
deriving DecidableEq, Repr

/-! ## Python string primitives (ASCII-level models) -/

/-- Python `str.strip()` on the character list: drop whitespace from both
ends. -/
def pyStripList (l : List Char) : List Char :=
  ((l.dropWhile Char.isWhitespace).reverse.dropWhile Char.isWhitespace).reverse

/-- Python `str.strip()`. -/
def pyStrip (s : String) : String :=
  ⟨pyStripList s.data⟩

/-- Python `str.split('\n')`: splits on every newline; the empty string
yields `[""]`, i.e. one empty field. -/
def pySplitNl : List Char → List (List Char)
  | [] => [[]]
  | c :: cs =>
    if c = '\n' then [] :: pySplitNl cs
    else
      match pySplitNl cs with
      | r :: rs => (c :: r) :: rs
      | [] => [[c]]

/-- Python `str.upper()`, modelled at the ASCII level (the inputs the bot
compares against `[A-Z]{4}` are ASCII): map `a`-`z` to `A`-`Z`, leave every
other character unchanged. -/
def pyUpperChar (c : Char) : Char :=
  if 97 ≤ c.toNat ∧ c.toNat ≤ 122 then Char.ofNat (c.toNat - 32) else c

/-- Python `str.upper()` on a string (ASCII-level model). -/
def pyUpper (s : String) : String :=
  ⟨s.data.map pyUpperChar⟩

/-- The `re.fullmatch` check against pattern `^[A-Z]\x7b4\x7d$`: the whole string is exactly four
characters, each in `A`-`Z`. -/
def isIcaoMatch (s : String) : Bool :=
  s.data.length = 4 && s.data.all (fun c => 65 ≤ c.toNat && c.toNat ≤ 90)

/-! ## get_aviation_weather -/

/-- The fixed `User-Agent` header sent with both requests. -/
def userAgentHeader : String := "AviationWeatherBot (Python Requests)"

/-- The METAR URL pattern with the identifier substituted. -/
def METAR_URL (icao_code : String) : String :=
  "https://tgftp.nws.noaa.gov/data/observations/metar/stations/" ++ icao_code ++ ".TXT"

/-- The TAF URL pattern with the identifier substituted. -/
def TAF_URL (icao_code : String) : String :=
  "https://tgftp.nws.noaa.gov/data/forecasts/taf/stations/" ++ icao_code ++ ".TXT"

/-- The METAR request as issued: URL, fixed header, `timeout=10`. -/
def metarRequest (icao_code : String) : Request :=
  ⟨METAR_URL icao_code, userAgentHeader, 10⟩

/-- The TAF request as issued: URL, fixed header, `timeout=10`. -/
def tafRequest (icao_code : String) : Request :=
  ⟨TAF_URL icao_code, userAgentHeader, 10⟩

/-- `requests.Response.raise_for_status()`: raises `HTTPError` exactly for
client-error (4xx) and server-error (5xx) status codes. -/
def raisesForStatus (status : Nat) : Bool :=
  400 ≤ status && status < 600

/-- The bulletin extraction applied to each 2xx body:
`response.text.strip().split('\n')`, then the element at index 1 if there
are at least two lines, else the empty string. -/
def extractBulletin (body : String) : String :=
  let lines := pySplitNl (pyStripList body.data)
  if lines.length > 1 then ⟨lines.getD 1 []⟩ else ""

/-- Failure message when both bulletins came back empty:
`f"找不到 {icao_code} 的 METAR/TAF 資料。請確認代碼是否正確。"` -/
def noDataMsg (icao_code : String) : String :=
  "找不到 " ++ icao_code ++ " 的 METAR/TAF 資料。請確認代碼是否正確。"

/-- Failure message for an HTTP 404:
`f"找不到 {icao_code} 的氣象報告。該 ICAO 代碼可能沒有提供 METAR/TAF 報告。"` -/
def notFound404Msg (icao_code : String) : String :=
  "找不到 " ++ icao_code ++ " 的氣象報告。該 ICAO 代碼可能沒有提供 METAR/TAF 報告。"

/-- Failure message for a non-404 `HTTPError` raised by
`raise_for_status()`: `f"連線至氣象 API 時發生錯誤：{e.__class__.__name__}"`;
the class name is always `HTTPError` there. -/
def httpErrMsg : String :=
  "連線至氣象 API 時發生錯誤：HTTPError"

/-- Failure message of the catch-all `except Exception` branch:
`f"處理氣象資料時發生未預期的錯誤：{e.__class__.__name__}"`. -/
def unexpectedErrMsg (className : String) : String :=
  "處理氣象資料時發生未預期的錯誤：" ++ className

/-- The extraction as the specification words it: the second line (index 1)
of the line split of the raw body, empty when the split has fewer than two
lines.  Stated for comparison with `extractBulletin`, which first applies
`strip()` to the body. -/
def secondLineOfBody (body : String) : String :=
  let lines := pySplitNl body.data
  if lines.length > 1 then ⟨lines.getD 1 []⟩ else ""

/-- `get_aviation_weather(icao_code)` together with the ordered trace of
outbound requests it issues.  The METAR request is issued first; if it
raises (transport exception or `raise_for_status`), control jumps to the
`except` clauses and the TAF request is never issued; otherwise the TAF
request follows.  `HTTPError` with status 404 yields the specific
"no report" message; other `HTTPError`s the connection-error message; any
other exception the catch-all message.  With both responses usable, the
second line of each stripped body is taken, and if both are empty the
failure pair `(None, noDataMsg)` is returned, else the success pair. -/
def getAviationWeatherRun (icao_code : String) (respM respT : FetchResult) :
    (Option String × String) × List Request :=
  match respM with
  | .exn c => ((none, unexpectedErrMsg c), [metarRequest icao_code])
  | .ok sM bM =>
    if raisesForStatus sM then
      ((none, if sM = 404 then notFound404Msg icao_code else httpErrMsg),
        [metarRequest icao_code])
    else
      let metar_data := extractBulletin bM
      match respT with
      | .exn c =>
        ((none, unexpectedErrMsg c), [metarRequest icao_code, tafRequest icao_code])
      | .ok sT bT =>
        if raisesForStatus sT then
          ((none, if sT = 404 then notFound404Msg icao_code else httpErrMsg),
            [metarRequest icao_code, tafRequest icao_code])
        else
          let taf_data := extractBulletin bT
          if metar_data = "" ∧ taf_data = "" then
            ((none, noDataMsg icao_code),
              [metarRequest icao_code, tafRequest icao_code])
          else
            ((some metar_data, taf_data),
              [metarRequest icao_code, tafRequest icao_code])

/-- The value `get_aviation_weather` returns: `(None, message)` on failure,
`(metar_data, taf_data)` on success (first component optional, second a
plain string, as in the Python return sites). -/
def get_aviation_weather (icao_code : String) (respM respT : FetchResult) :
    Option String × String :=
  (getAviationWeatherRun icao_code respM respT).1

/-! ## handle_message -/

/-- Python `str(x)` on an optional string: `None` prints as `"None"`. -/
def pyStr : Option String → String
  | none => "None"
  | some s => s

/-- Python truthiness of a `None`-or-`str` value: `None` and `""` are
falsy, every other string truthy. -/
def truthy : Option String → Bool
  | none => false
  | some s => !(s = "")

/-- The fixed instructional reply sent for any input that fails the
4-letter ICAO validation. -/
def INVALID_FORMAT_MSG : String :=
  "⚠️ 格式錯誤！\n請輸入一個 **4 碼 ICAO 機場代碼**（例如：**RCTP**、**RJAA**、**KLAX**）。"

/-- The not-found notice placed in the METAR section when the observation
value is falsy. -/
def metarNotFoundLine (icao_code : String) : String :=
  "❌ 找不到 " ++ icao_code ++ " 的最新 METAR 資料。"

/-- The not-found notice placed in the TAF section when the forecast value
is falsy. -/
def tafNotFoundLine (icao_code : String) : String :=
  "❌ 找不到 " ++ icao_code ++ " 的最新 TAF 資料。"

/-- The header line naming the identifier (note its trailing `\n`, kept
from the source literal). -/
def headerLine (icao_code : String) : String :=
  "✈️ **" ++ icao_code ++ "** 航空氣象報告 (Aviation Weather Report)\n"

/-- The reply-formatting step of `handle_message` (lines building
`final_reply`), as a function of the identifier and the two values
unpacked from `get_aviation_weather`: if `metar or taf` is truthy, join
the header, the METAR section (value or not-found notice) and the TAF
section (value or not-found notice) with newlines; otherwise the short
`🚨 查詢失敗` wrapper around `taf` (the failure message slot). -/
def build_reply (icao_code : String) (metar taf : Option String) : String :=
  if truthy metar || truthy taf then
    "\n".intercalate
      [headerLine icao_code,
       "--- 觀測報告 (METAR) ---",
       if truthy metar then pyStr metar else metarNotFoundLine icao_code,
       "\n--- 預報 (TAF) ---",
       if truthy taf then pyStr taf else tafNotFoundLine icao_code]
  else
    "🚨 查詢失敗：\n" ++ pyStr taf

/-- `handle_message(event)`: strip the text, validate it against
`^[A-Z]{4}$` after uppercasing; on failure reply with the fixed
instructional message and fetch nothing; on success run
`get_aviation_weather` on the uppercased code and format the reply.
Returns the text handed to `line_bot_api.reply_message` together with the
trace of outbound weather requests. -/
def handle_message (text : String) (respM respT : FetchResult) :
    String × List Request :=
  let user_input := pyStrip text
  if !(isIcaoMatch (pyUpper user_input)) then
    (INVALID_FORMAT_MSG, [])
  else
    let icao_code := pyUpper user_input
    let r := getAviationWeatherRun icao_code respM respT
    (build_reply icao_code r.1.1 (some r.1.2), r.2)

/-! ## /callback endpoint -/

/-- One call to the reply API of the platform: the reply token of the event and the
text sent. -/
structure ReplyCall where
  replyToken : String
  text : String
deriving DecidableEq, Repr

/-- Modelled from the spec: the `linebot` library function
`WebhookHandler.handle(body, signature)` (not part of this repository)
recomputes a keyed hash over the body with the configured channel secret,
compares it with the header-supplied signature, raises
`InvalidSignatureError` on mismatch, and on match dispatches each text
message event to the registered handler.  The keyed-hash computation is
abstracted as `computeSig`; the text events parsed from the body as
`events` (reply token, message text). -/
def webhookVerifies (computeSig : String → String → String)
    (secret body signature : String) : Bool :=
  computeSig secret body = signature

/-- `POST /callback`: read the `X-Line-Signature` header and the body, let
the handler verify and dispatch; on `InvalidSignatureError` abort with
HTTP 400 (no reply is sent); otherwise respond 200 with body `OK`.
Returns `(status, response body, reply-API calls made)`. -/
def callback (computeSig : String → String → String) (secret : String)
    (signature body : String) (events : List (String × String))
    (respM respT : FetchResult) :
    (Nat × Option String) × List ReplyCall :=
  if webhookVerifies computeSig secret body signature then
    ((200, some "OK"),
      events.map (fun ev => ⟨ev.1, (handle_message ev.2 respM respT).1⟩))
  else
    ((400, none), [])

/-! ## Helper lemmas on the failure messages -/

/-- The 404 message starts with the character 找. -/
theorem data_head_notFound404 (i : String) :
    (notFound404Msg i).data.head? = some '找' := by
  rw [notFound404Msg, String.data_append, String.data_append,
      show ("找不到 " : String).data = '找' :: "不到 ".data from rfl]
  rfl

/-- The no-data message starts with the character 找. -/
theorem data_head_noData (i : String) :
    (noDataMsg i).data.head? = some '找' := by
  rw [noDataMsg, String.data_append, String.data_append,
      show ("找不到 " : String).data = '找' :: "不到 ".data from rfl]
  rfl

/-- The catch-all exception message starts with the character 處. -/
theorem data_head_unexpected (c : String) :
    (unexpectedErrMsg c).data.head? = some '處' := by
  rw [unexpectedErrMsg, String.data_append,
      show ("處理氣象資料時發生未預期的錯誤：" : String).data
        = '處' :: "理氣象資料時發生未預期的錯誤：".data from rfl]
  rfl

/-- The 404 message is never the empty string. -/
theorem notFound404Msg_ne_empty (i : String) : notFound404Msg i ≠ "" := by
  intro h
  have h2 : (notFound404Msg i).data.head? = ("" : String).data.head? :=
    congrArg (fun s => s.data.head?) h
  rw [data_head_notFound404] at h2
  exact absurd h2 (by decide)

/-- The no-data message is never the empty string. -/
theorem noDataMsg_ne_empty (i : String) : noDataMsg i ≠ "" := by
  intro h
  have h2 : (noDataMsg i).data.head? = ("" : String).data.head? :=
    congrArg (fun s => s.data.head?) h
  rw [data_head_noData] at h2
  exact absurd h2 (by decide)

/-- The catch-all exception message is never the empty string. -/
theorem unexpectedErrMsg_ne_empty (c : String) : unexpectedErrMsg c ≠ "" := by
  intro h
  have h2 : (unexpectedErrMsg c).data.head? = ("" : String).data.head? :=
    congrArg (fun s => s.data.head?) h
  rw [data_head_unexpected] at h2
  exact absurd h2 (by decide)

/-- The connection-error message is not the empty string. -/
theorem httpErrMsg_ne_empty : httpErrMsg ≠ "" := by decide

/-! ## Claims -/

/-- C1 (code bug evaluation).  When both fetches return 2xx with one-line
bodies, `get_aviation_weather` returns the failure outcome
`(None, noDataMsg)`, yet the text `handle_message` hands to the reply
sender is the two-section METAR/TAF success format with the failure text
in the TAF section — not the short 查詢失敗 wrapper the claim requires.
The `else` branch building the wrapper is unreachable: every failure
outcome has a non-empty second component, which makes `metar or taf`
truthy. -/
theorem c1_failure_reply_rendered_in_success_format :
    (handle_message "ZZZZ" (.ok 200 "NIL") (.ok 200 "NIL")).1 =
      "✈️ **ZZZZ** 航空氣象報告 (Aviation Weather Report)\n\n--- 觀測報告 (METAR) ---\n❌ 找不到 ZZZZ 的最新 METAR 資料。\n\n--- 預報 (TAF) ---\n找不到 ZZZZ 的 METAR/TAF 資料。請確認代碼是否正確。" ∧
    get_aviation_weather "ZZZZ" (.ok 200 "NIL") (.ok 200 "NIL") =
      (none, noDataMsg "ZZZZ") ∧
    (handle_message "ZZZZ" (.ok 200 "NIL") (.ok 200 "NIL")).1 ≠
      "🚨 查詢失敗：\n" ++ noDataMsg "ZZZZ" := by
  refine ⟨by decide, by decide, by decide⟩

/-- C2 (counterexample).  A 404 on the TAF request while the METAR body
carries a real bulletin makes `get_aviation_weather` return an overall
failure `(None, 404 message)`, not a success outcome carrying the present
bulletin: a non-2xx status is not treated as a failure for that bulletin
only. -/
theorem c2_counterexample_http_error_discards_partial :
    extractBulletin "HDR\nMETAR DATA" = "METAR DATA" ∧
    get_aviation_weather "RCTP" (.ok 200 "HDR\nMETAR DATA") (.ok 404 "") =
      (none, notFound404Msg "RCTP") ∧
    (get_aviation_weather "RCTP" (.ok 200 "HDR\nMETAR DATA") (.ok 404 "")).1 ≠
      some "METAR DATA" := by
  refine ⟨by decide, by decide, by decide⟩

/-- C2 (amended).  A 4xx/5xx status on either request raises `HTTPError`
and aborts the whole query as an overall failure outcome, discarding any
already-fetched bulletin; a bulletin is absent-but-successful only when
its non-raising body yields no second line, and when both requests
complete without raising and at least one extracted bulletin is
non-empty, a success outcome carrying both values (the absent one empty)
is returned. -/
theorem c2_amended_http_error_aborts_whole_query (icao bM bT : String)
    (sM sT : Nat) (respT : FetchResult) :
    (raisesForStatus sM = true →
      get_aviation_weather icao (.ok sM bM) respT =
        (none, if sM = 404 then notFound404Msg icao else httpErrMsg)) ∧
    (raisesForStatus sM = false → raisesForStatus sT = true →
      get_aviation_weather icao (.ok sM bM) (.ok sT bT) =
        (none, if sT = 404 then notFound404Msg icao else httpErrMsg)) ∧
    (raisesForStatus sM = false → raisesForStatus sT = false →
      (extractBulletin bM ≠ "" ∨ extractBulletin bT ≠ "") →
      get_aviation_weather icao (.ok sM bM) (.ok sT bT) =
        (some (extractBulletin bM), extractBulletin bT)) := by
  refine ⟨fun h1 => ?_, fun h1 h2 => ?_, fun h1 h2 h3 => ?_⟩
  · simp [get_aviation_weather, getAviationWeatherRun, h1]
  · simp [get_aviation_weather, getAviationWeatherRun, h1, h2]
  · have hg : ¬(extractBulletin bM = "" ∧ extractBulletin bT = "") := by
      rcases h3 with h | h
      · exact fun hc => h hc.1
      · exact fun hc => h hc.2
    simp [get_aviation_weather, getAviationWeatherRun, h1, h2, hg]

/-- Witness for C2 (amended): a 503 on the METAR request yields the
generic connection-error failure. -/
theorem c2_amended_witness :
    get_aviation_weather "RCTP" (.ok 503 "X") (.ok 200 "H\nT") =
      (none, httpErrMsg) := by
  have h := (c2_amended_http_error_aborts_whole_query "RCTP" "X" "H\nT" 503 200
    (.ok 200 "H\nT")).1 (by decide)
  exact h.trans (by decide)

/-- C3.  Any message text whose trimmed, uppercased form is not exactly
four letters A-Z draws the fixed instructional reply and triggers no
outbound fetch; any text whose trimmed, uppercased form is exactly four
letters A-Z is accepted: the METAR request for the uppercased identifier
is issued first, and the reply is formatted from the fetch outcome for
that uppercased identifier. -/
theorem c3_validation_gate (text : String) (respM respT : FetchResult) :
    (isIcaoMatch (pyUpper (pyStrip text)) = false →
      handle_message text respM respT = (INVALID_FORMAT_MSG, [])) ∧
    (isIcaoMatch (pyUpper (pyStrip text)) = true →
      (handle_message text respM respT).2.head? =
        some (metarRequest (pyUpper (pyStrip text))) ∧
      (handle_message text respM respT).1 =
        build_reply (pyUpper (pyStrip text))
          (get_aviation_weather (pyUpper (pyStrip text)) respM respT).1
          (some (get_aviation_weather (pyUpper (pyStrip text)) respM respT).2)) := by
  constructor
  · intro h
    rw [handle_message]
    simp [h]
  · intro h
    rw [handle_message]
    simp only [h, Bool.not_true, Bool.false_eq_true, if_false]
    refine ⟨?_, rfl⟩
    unfold getAviationWeatherRun
    cases respM with
    | exn c => rfl
    | ok sM bM =>
      dsimp only
      split
      · rfl
      · cases respT with
        | exn c => rfl
        | ok sT bT =>
          dsimp only
          split
          · rfl
          · split
            · rfl
            · rfl

/-- Witness for C3: a digit-bearing input is rejected with no fetch, and
a lowercase padded input is fetched as its uppercase form. -/
theorem c3_validation_gate_witness :
    handle_message "rc1p" (.ok 200 "H\nM") (.ok 200 "H\nT") =
      (INVALID_FORMAT_MSG, []) ∧
    (handle_message "  rctp " (.ok 200 "H\nM") (.ok 200 "H\nT")).2.head? =
      some (metarRequest (pyUpper (pyStrip "  rctp "))) := by
  constructor
  · exact (c3_validation_gate "rc1p" (.ok 200 "H\nM") (.ok 200 "H\nT")).1 (by decide)
  · exact ((c3_validation_gate "  rctp " (.ok 200 "H\nM") (.ok 200 "H\nT")).2
      (by decide)).1

/-- C4.  HTTP 404 on the observation fetch yields the specific no-report
message; an exception raised by either fetch is caught and converted into
a failure outcome whose message carries the exception class name (never
propagated — the function still returns a pair); and the 404 message is
distinct from the transport-exception message for every identifier and
class name. -/
theorem c4_404_distinct_and_exceptions_caught (icao c bM : String)
    (respT : FetchResult) (sM : Nat) :
    get_aviation_weather icao (.ok 404 bM) respT = (none, notFound404Msg icao) ∧
    get_aviation_weather icao (.exn c) respT = (none, unexpectedErrMsg c) ∧
    (raisesForStatus sM = false →
      get_aviation_weather icao (.ok sM bM) (.exn c) = (none, unexpectedErrMsg c)) ∧
    notFound404Msg icao ≠ unexpectedErrMsg c := by
  refine ⟨rfl, rfl, fun h => ?_, ?_⟩
  · simp [get_aviation_weather, getAviationWeatherRun, h]
  · intro h
    have h2 : (notFound404Msg icao).data.head? = (unexpectedErrMsg c).data.head? :=
      congrArg (fun s => s.data.head?) h
    rw [data_head_notFound404, data_head_unexpected] at h2
    exact absurd h2 (by decide)

/-- Witness for C4: a connection error on the TAF fetch after a good METAR
response is converted into the catch-all failure message. -/
theorem c4_witness :
    get_aviation_weather "RCTP" (.ok 200 "H\nM") (.exn "ConnectionError") =
      (none, unexpectedErrMsg "ConnectionError") :=
  (c4_404_distinct_and_exceptions_caught "RCTP" "ConnectionError" "H\nM"
    (.exn "ConnectionError") 200).2.2.1 (by decide)

/-- C5 (counterexample).  For the 2xx body beginning with a newline, the
bulletin the code extracts is not the second line of the line split of the
raw body: the code strips the body first, shifting the indices. -/
theorem c5_counterexample_strip_shifts_second_line :
    secondLineOfBody "\nA\nB" = "A" ∧
    get_aviation_weather "RCTP" (.ok 200 "\nA\nB") (.ok 200 "H\nT") =
      (some "B", "T") ∧
    (get_aviation_weather "RCTP" (.ok 200 "\nA\nB") (.ok 200 "H\nT")).1 ≠
      some (secondLineOfBody "\nA\nB") := by
  refine ⟨by decide, by decide, by decide⟩

/-- C5 (amended).  The bulletin is the second line (index 1) of the line
split of the body after stripping surrounding whitespace — this agrees
with the second line of the raw body whenever the body has no surrounding
whitespace; a body with fewer than two lines after stripping yields the
empty string (absent, not an error); and a one-line observation body with
a normal forecast body yields a partial success outcome. -/
theorem c5_amended_second_line_of_stripped_body (icao bM bT : String)
    (sM sT : Nat) (hM : raisesForStatus sM = false)
    (hT : raisesForStatus sT = false) :
    (pyStripList bM.data = bM.data → extractBulletin bM = secondLineOfBody bM) ∧
    ((pySplitNl (pyStripList bM.data)).length ≤ 1 → extractBulletin bM = "") ∧
    (extractBulletin bM = "" → extractBulletin bT ≠ "" →
      get_aviation_weather icao (.ok sM bM) (.ok sT bT) =
        (some "", extractBulletin bT)) := by
  refine ⟨fun h => ?_, fun h => ?_, fun h1 h2 => ?_⟩
  · rw [extractBulletin, secondLineOfBody, h]
  · rw [extractBulletin]
    simp only [gt_iff_lt]
    rw [if_neg (by omega)]
  · have hg : ¬(extractBulletin bM = "" ∧ extractBulletin bT = "") :=
      fun hc => h2 hc.2
    simp [get_aviation_weather, getAviationWeatherRun, hM, hT, hg, h1, h2]

/-- Witness for C5 (amended): a one-line observation body beside a normal
forecast body gives the partial success outcome. -/
theorem c5_amended_witness :
    get_aviation_weather "RCTP" (.ok 200 "ONLYHDR") (.ok 200 "H\nTAF DATA") =
      (some "", extractBulletin "H\nTAF DATA") :=
  (c5_amended_second_line_of_stripped_body "RCTP" "ONLYHDR" "H\nTAF DATA" 200 200
    (by decide) (by decide)).2.2 (by decide) (by decide)

/-- C6.  When both requests complete with non-raising statuses and both
extracted bulletins are empty, `get_aviation_weather` returns the failure
outcome whose message embeds the identifier and states that no METAR/TAF
data was found. -/
theorem c6_both_empty_yields_named_failure (icao : String) (sM sT : Nat)
    (bM bT : String) (hM : raisesForStatus sM = false)
    (hT : raisesForStatus sT = false) (heM : extractBulletin bM = "")
    (heT : extractBulletin bT = "") :
    get_aviation_weather icao (.ok sM bM) (.ok sT bT) = (none, noDataMsg icao) ∧
    ∃ pre post, noDataMsg icao = pre ++ icao ++ post := by
  constructor
  · simp [get_aviation_weather, getAviationWeatherRun, hM, hT, heM, heT]
  · exact ⟨"找不到 ", " 的 METAR/TAF 資料。請確認代碼是否正確。", rfl⟩

/-- Witness for C6: two one-line bodies under 2xx statuses give the
no-data failure naming the identifier. -/
theorem c6_witness :
    get_aviation_weather "XXXX" (.ok 200 "NIL") (.ok 204 "NIL") =
      (none, noDataMsg "XXXX") :=
  (c6_both_empty_yields_named_failure "XXXX" 200 204 "NIL" "NIL"
    (by decide) (by decide) (by decide) (by decide)).1

/-- C7.  A callback request whose signature header differs from the value
computed over the body and the secret is answered with HTTP 400 and no
reply-API call is made; a verified request is answered 200 with body
`OK`. -/
theorem c7_callback_signature_gate (computeSig : String → String → String)
    (secret signature body : String) (events : List (String × String))
    (respM respT : FetchResult) :
    (signature ≠ computeSig secret body →
      callback computeSig secret signature body events respM respT =
        ((400, none), [])) ∧
    (signature = computeSig secret body →
      (callback computeSig secret signature body events respM respT).1 =
        (200, some "OK")) := by
  constructor
  · intro h
    have hv : webhookVerifies computeSig secret body signature = false := by
      rw [webhookVerifies]
      simp only [decide_eq_false_iff_not]
      exact fun hv => h hv.symm
    simp [callback, hv]
  · intro h
    have hv : webhookVerifies computeSig secret body signature = true := by
      rw [webhookVerifies]
      simp only [decide_eq_true_eq]
      exact h.symm
    simp [callback, hv]

/-- Witness for C7: a wrong signature is rejected with 400 and no reply; a
matching one is answered 200 `OK`. -/
theorem c7_callback_signature_gate_witness :
    callback (fun _ _ => "SIG") "secret" "WRONG" "body" [("tok", "RCTP")]
        (.ok 200 "H\nM") (.ok 200 "H\nT") = ((400, none), []) ∧
    (callback (fun _ _ => "SIG") "secret" "SIG" "body" [("tok", "RCTP")]
        (.ok 200 "H\nM") (.ok 200 "H\nT")).1 = (200, some "OK") := by
  constructor
  · exact (c7_callback_signature_gate (fun _ _ => "SIG") "secret" "WRONG" "body"
      [("tok", "RCTP")] (.ok 200 "H\nM") (.ok 200 "H\nT")).1 (by decide)
  · exact (c7_callback_signature_gate (fun _ _ => "SIG") "secret" "SIG" "body"
      [("tok", "RCTP")] (.ok 200 "H\nM") (.ok 200 "H\nT")).2 rfl

/-- C8.  For every identifier and every pair of fetch outcomes, the trace
of outbound requests is either the METAR request alone (the observation
attempt raised, so the forecast request was never issued) or the METAR
request followed by the TAF request; both requests carry the fixed URL
patterns with the identifier substituted, the same fixed `User-Agent`
header, and timeout 10. -/
theorem c8_requests_fixed_urls_headers_sequential (icao : String)
    (respM respT : FetchResult) :
    ((getAviationWeatherRun icao respM respT).2 = [metarRequest icao] ∨
     (getAviationWeatherRun icao respM respT).2 =
       [metarRequest icao, tafRequest icao]) ∧
    metarRequest icao =
      ⟨"https://tgftp.nws.noaa.gov/data/observations/metar/stations/"
         ++ icao ++ ".TXT",
       "AviationWeatherBot (Python Requests)", 10⟩ ∧
    tafRequest icao =
      ⟨"https://tgftp.nws.noaa.gov/data/forecasts/taf/stations/"
         ++ icao ++ ".TXT",
       "AviationWeatherBot (Python Requests)", 10⟩ := by
  refine ⟨?_, rfl, rfl⟩
  unfold getAviationWeatherRun
  cases respM with
  | exn c => exact Or.inl rfl
  | ok sM bM =>
    dsimp only
    split
    · exact Or.inl rfl
    · cases respT with
      | exn c => exact Or.inr rfl
      | ok sT bT =>
        dsimp only
        split
        · exact Or.inr rfl
        · split
          · exact Or.inr rfl
          · exact Or.inr rfl

/-- C9.  The reply formatting is a pure deterministic function of the
triple (identifier, observation-or-null, forecast-or-null): two
evaluations on identical inputs give identical text, and whenever either
value is truthy the output is the fixed structure — a header embedding the
identifier, an observation section holding the observation line or the
not-found notice, and a forecast section holding the forecast line or the
not-found notice, joined with line breaks. -/
theorem c9_formatting_pure_and_structured (icao : String)
    (metar taf : Option String) :
    build_reply icao metar taf = build_reply icao metar taf ∧
    ((truthy metar || truthy taf) = true →
      build_reply icao metar taf =
        "\n".intercalate
          [headerLine icao,
           "--- 觀測報告 (METAR) ---",
           if truthy metar then pyStr metar else metarNotFoundLine icao,
           "\n--- 預報 (TAF) ---",
           if truthy taf then pyStr taf else tafNotFoundLine icao] ∧
      ∃ pre post, headerLine icao = pre ++ icao ++ post) := by
  refine ⟨rfl, fun h => ⟨?_,
    ⟨"✈️ **", "** 航空氣象報告 (Aviation Weather Report)\n", rfl⟩⟩⟩
  rw [build_reply, if_pos h]

/-- Witness for C9: a present METAR with an absent TAF renders the two
sections with the not-found notice on the TAF side. -/
theorem c9_formatting_witness :
    build_reply "RCTP" (some "METAR X") none =
      "\n".intercalate
        [headerLine "RCTP",
         "--- 觀測報告 (METAR) ---",
         if truthy (some "METAR X") then pyStr (some "METAR X")
           else metarNotFoundLine "RCTP",
         "\n--- 預報 (TAF) ---",
         if truthy (none : Option String) then pyStr none
           else tafNotFoundLine "RCTP"] :=
  ((c9_formatting_pure_and_structured "RCTP" (some "METAR X") none).2 (by decide)).1

/-- C10.  Every pair `get_aviation_weather` returns satisfies: if the
first (observation) component is `None` the second is a non-empty failure
message, and at least one component of the pair is a truthy string — the
both-empty success case having been converted to `(None, message)` before
returning. -/
theorem c10_result_pair_invariant (icao : String) (respM respT : FetchResult) :
    ((get_aviation_weather icao respM respT).1 = none →
      (get_aviation_weather icao respM respT).2 ≠ "") ∧
    ((∃ s, (get_aviation_weather icao respM respT).1 = some s ∧ s ≠ "") ∨
      (get_aviation_weather icao respM respT).2 ≠ "") := by
  unfold get_aviation_weather getAviationWeatherRun
  cases respM with
  | exn c =>
    exact ⟨fun _ => unexpectedErrMsg_ne_empty c, Or.inr (unexpectedErrMsg_ne_empty c)⟩
  | ok sM bM =>
    dsimp only
    split
    · split
      · exact ⟨fun _ => notFound404Msg_ne_empty icao,
          Or.inr (notFound404Msg_ne_empty icao)⟩
      · exact ⟨fun _ => httpErrMsg_ne_empty, Or.inr httpErrMsg_ne_empty⟩
    · cases respT with
      | exn c =>
        exact ⟨fun _ => unexpectedErrMsg_ne_empty c,
          Or.inr (unexpectedErrMsg_ne_empty c)⟩
      | ok sT bT =>
        dsimp only
        split
        · split
          · exact ⟨fun _ => notFound404Msg_ne_empty icao,
              Or.inr (notFound404Msg_ne_empty icao)⟩
          · exact ⟨fun _ => httpErrMsg_ne_empty, Or.inr httpErrMsg_ne_empty⟩
        · split
          · exact ⟨fun _ => noDataMsg_ne_empty icao,
              Or.inr (noDataMsg_ne_empty icao)⟩
          · rename_i hguard
            refine ⟨fun h => Option.noConfusion h, ?_⟩
            by_cases ht : extractBulletin bT = ""
            · exact Or.inl ⟨extractBulletin bM, rfl, fun hm => hguard ⟨hm, ht⟩⟩
            · exact Or.inr ht

/-- Witness for C10: a timeout on the observation fetch gives a `None`
first component and, by the invariant, a non-empty message. -/
theorem c10_result_pair_invariant_witness :
    (get_aviation_weather "RCTP" (.exn "Timeout") (.ok 200 "H\nT")).2 ≠ "" :=
  (c10_result_pair_invariant "RCTP" (.exn "Timeout") (.ok 200 "H\nT")).1 rfl

end LineWeatherBot
